import Mathlib

/-!
Verification development for the r2r-robosuite trajectory retargeting core.

The two source files embedded here are
  rendering/envs/target_env.py              (TargetEnvWrapper.generate_image)
  rendering/generate_target_robot_images_new.py
      (select_gripper, generate_one_episode, main)

Modelling conventions:
* numpy float arrays become exact rationals (ℚ); 3-vectors become `Vec3`.
* The physics simulator (sim.robot_camera.RobotCameraWrapper), which is an
  external collaborator outside the embedded core, is a parameter: an
  explicit state type `σ` together with the operations the core calls,
  bundled in `SimOracle`.
* `core.signal.reach_further` and the trigonometric evaluation inside
  scipy's `Rotation.from_euler` are likewise external and appear as
  function parameters (`reach_further`, `Trig`).
* Fallible Python code (raised exceptions) becomes `Except String`.
* Filesystem side effects are reified as a list of `FsWrite` events.
-/

namespace R2R

/-- 3-vector of exact rationals, standing in for a numpy length-3 float array. -/
structure Vec3 where
  x : ℚ
  y : ℚ
  z : ℚ
deriving DecidableEq, Repr

instance : Add Vec3 := ⟨fun a b => ⟨a.x + b.x, a.y + b.y, a.z + b.z⟩⟩
instance : Sub Vec3 := ⟨fun a b => ⟨a.x - b.x, a.y - b.y, a.z - b.z⟩⟩
instance : Zero Vec3 := ⟨⟨0, 0, 0⟩⟩

/-- Quaternion payload `(qx, qy, qz, qw)` carried along with a position in a
7-component pose array; the replay core moves it around unchanged. -/
structure Vec4 where
  a : ℚ
  b : ℚ
  c : ℚ
  d : ℚ
deriving DecidableEq, Repr

/-- A 7-component end-effector pose: `pose[:3]` position and `pose[3:]`
quaternion, as used throughout `generate_image`. -/
structure Pose where
  pos : Vec3
  quat : Vec4
deriving DecidableEq, Repr

/-- Result of `drive_robot_to_target_pose`: the updated simulator state plus
the `(reached, reached_pose, error)` triple the Python call returns. -/
structure DriveOut (σ : Type) where
  st : σ
  reached : Bool
  pose : Pose
  err : ℚ

/-- The simulator boundary consumed by `generate_image`, with explicit
state `σ`.  Mirrors the calls made on `self.target_env`:
`get_gripper_width_from_qpos` returns a `(raw, normalized)` pair (the code
uses the second component for matching and records the whole pair);
`render` returns abstract frame identifiers for the RGB and segmentation
images produced by `get_observation_fast`. -/
structure SimOracle (σ : Type) where
  gripperWidth : σ → ℚ × ℚ
  openCloseGripper : Bool → σ → σ
  driveToPose : Pose → σ → DriveOut σ
  eefPose : σ → Pose
  jointAngles : σ → List ℚ
  render : σ → ℕ × ℕ

/-- The gripper-matching loop of `generate_image` (target_env.py lines
90-98): while the normalized width is outside `target ± 0.1` and fewer
than 10 attempts have been made, command open (width too small) or close
(width too large) and re-read.  `fuel` counts the remaining attempts
(called with 10); the returned trace records, per actuation, the width
reading that triggered it and the commanded direction (`true` = open). -/
def gripperMatch {σ : Type} (sim : SimOracle σ) (target : ℚ) :
    ℕ → σ → σ × List (ℚ × Bool)
  | 0, s => (s, [])
  | fuel + 1, s =>
    let w := (sim.gripperWidth s).2
    if w < target - 1/10 then
      let s1 := sim.openCloseGripper true s
      let r := gripperMatch sim target fuel s1
      (r.1, (w, true) :: r.2)
    else if w > target + 1/10 then
      let s1 := sim.openCloseGripper false s
      let r := gripperMatch sim target fuel s1
      (r.1, (w, false) :: r.2)
    else
      (s, [])

theorem gripperMatch_length_le {σ : Type} (sim : SimOracle σ) (target : ℚ) :
    ∀ (fuel : ℕ) (s : σ), (gripperMatch sim target fuel s).2.length ≤ fuel := by
  intro fuel
  induction fuel with
  | zero => intro s; simp [gripperMatch]
  | succ n ih =>
    intro s
    simp only [gripperMatch]
    split
    · simpa using Nat.succ_le_succ (ih _)
    · split
      · simpa using Nat.succ_le_succ (ih _)
      · simp

theorem gripperMatch_actuations_out_of_tol {σ : Type} (sim : SimOracle σ)
    (target : ℚ) : ∀ (fuel : ℕ) (s : σ) (p : ℚ × Bool),
    p ∈ (gripperMatch sim target fuel s).2 →
    p.1 < target - 1/10 ∨ target + 1/10 < p.1 := by
  intro fuel
  induction fuel with
  | zero => intro s p hp; simp [gripperMatch] at hp
  | succ n ih =>
    intro s p hp
    simp only [gripperMatch] at hp
    split at hp
    · rcases List.mem_cons.mp hp with h | h
      · subst h; left; assumption
      · exact ih _ _ h
    · split at hp
      · rcases List.mem_cons.mp hp with h | h
        · subst h; right; assumption
        · exact ih _ _ h
      · simp at hp

theorem gripperMatch_stops_in_tol {σ : Type} (sim : SimOracle σ)
    (target : ℚ) (fuel : ℕ) (s : σ)
    (h1 : target - 1/10 ≤ (sim.gripperWidth s).2)
    (h2 : (sim.gripperWidth s).2 ≤ target + 1/10) :
    gripperMatch sim target fuel s = (s, []) := by
  cases fuel with
  | zero => simp [gripperMatch]
  | succ n =>
    simp only [gripperMatch]
    rw [if_neg (by exact not_lt.mpr h1), if_neg (by exact not_lt.mpr h2)]

/-! ## Displacement search optimizer
(generate_target_robot_images_new.py, generate_one_episode lines 71-116).
The dry-run replay is the black-box scorer: `ev cand = (ok, steps)` stands
for `wrapper.generate_image(..., robot_disp=cand, dry_run=True)` projected
to its success flag and steps-completed count. -/

/-- The candidate list built at the top of each outer iteration, in the
source's order: center, +X, -X, +Y, -Y, +Z, -Z. -/
def candidates (d : Vec3) (step : ℚ) : List Vec3 :=
  [d,
   d + ⟨step, 0, 0⟩, d - ⟨step, 0, 0⟩,
   d + ⟨0, step, 0⟩, d - ⟨0, step, 0⟩,
   d + ⟨0, 0, step⟩, d - ⟨0, 0, step⟩]

/-- Outcome of one inner candidate-evaluation loop: `adopted` is the first
successful candidate (at which the code breaks), `bestDisp` the running
`best_disp`, and `evaluated` the candidates actually scored, in order. -/
structure IterOut where
  adopted : Option Vec3
  bestDisp : Vec3
  evaluated : List Vec3
deriving DecidableEq, Repr

/-- The inner `for cand in candidates` loop: `bs`/`bd` are the running
`best_steps` (an integer, initialized to -1) and `best_disp`.  On the first
candidate with `ok` the loop breaks; otherwise a strictly larger step count
updates the running best. -/
def iterLoop (ev : Vec3 → Bool × ℕ) : List Vec3 → ℤ → Vec3 → IterOut
  | [], _, bd => ⟨none, bd, []⟩
  | c :: cs, bs, bd =>
    let r := ev c
    if r.1 then ⟨some c, c, [c]⟩
    else if (r.2 : ℤ) > bs then
      let o := iterLoop ev cs (r.2 : ℤ) c
      ⟨o.adopted, o.bestDisp, c :: o.evaluated⟩
    else
      let o := iterLoop ev cs bs bd
      ⟨o.adopted, o.bestDisp, c :: o.evaluated⟩

/-- The outer `for _ in range(max_iter)` loop: on an adopted candidate the
whole search breaks; otherwise the displacement moves to the running best
and the step size is halved.  Returns the final displacement together with
the full trace of evaluated candidates. -/
def search (ev : Vec3 → Bool × ℕ) : ℕ → Vec3 → ℚ → Vec3 × List Vec3
  | 0, d, _ => (d, [])
  | fuel + 1, d, step =>
    let it := iterLoop ev (candidates d step) (-1) d
    match it.adopted with
    | some c => (c, it.evaluated)
    | none =>
      let r := search ev fuel it.bestDisp (step / 2)
      (r.1, it.evaluated ++ r.2)

/-- The search as configured in the source: `step = 0.05`, `max_iter = 5`. -/
def displacementSearch (ev : Vec3 → Bool × ℕ) (d0 : Vec3) : Vec3 × List Vec3 :=
  search ev 5 d0 (1/20)

theorem iterLoop_evaluated_le (ev : Vec3 → Bool × ℕ) :
    ∀ (cs : List Vec3) (bs : ℤ) (bd : Vec3),
    (iterLoop ev cs bs bd).evaluated.length ≤ cs.length := by
  intro cs
  induction cs with
  | nil => intro bs bd; simp [iterLoop]
  | cons c cs ih =>
    intro bs bd
    simp only [iterLoop]
    split
    · simp
    · split
      · simpa using Nat.succ_le_succ (ih _ _)
      · simpa using Nat.succ_le_succ (ih _ _)

theorem iterLoop_first_success (ev : Vec3 → Bool × ℕ) :
    ∀ (pre : List Vec3) (c : Vec3) (post : List Vec3) (bs : ℤ) (bd : Vec3),
    (∀ p ∈ pre, (ev p).1 = false) → (ev c).1 = true →
    iterLoop ev (pre ++ c :: post) bs bd = ⟨some c, c, pre ++ [c]⟩ := by
  intro pre
  induction pre with
  | nil =>
    intro c post bs bd _ hc
    simp [iterLoop, hc]
  | cons p pre ih =>
    intro c post bs bd hpre hc
    have hp : (ev p).1 = false := hpre p (List.mem_cons_self p pre)
    have htail : ∀ q ∈ pre, (ev q).1 = false :=
      fun q hq => hpre q (List.mem_cons_of_mem p hq)
    simp only [List.cons_append, iterLoop, hp]
    simp only [Bool.false_eq_true, if_false, List.append_eq]
    split
    · rw [ih c post _ _ htail hc]
    · rw [ih c post _ _ htail hc]

theorem iterLoop_all_fail (ev : Vec3 → Bool × ℕ) :
    ∀ (cs : List Vec3) (bs : ℤ) (bd : Vec3),
    (∀ c ∈ cs, (ev c).1 = false) →
    (iterLoop ev cs bs bd).adopted = none ∧
    (iterLoop ev cs bs bd).evaluated = cs ∧
    (((iterLoop ev cs bs bd).bestDisp = bd ∧ ∀ c ∈ cs, ((ev c).2 : ℤ) ≤ bs) ∨
      ∃ pre c post, cs = pre ++ c :: post ∧
        (iterLoop ev cs bs bd).bestDisp = c ∧ bs < ((ev c).2 : ℤ) ∧
        (∀ p ∈ pre, (ev p).2 < (ev c).2) ∧
        (∀ q ∈ post, (ev q).2 ≤ (ev c).2)) := by
  intro cs
  induction cs with
  | nil =>
    intro bs bd _
    refine ⟨rfl, rfl, Or.inl ⟨rfl, by simp⟩⟩
  | cons c0 cs ih =>
    intro bs bd hfail
    have hc0 : (ev c0).1 = false := hfail c0 (List.mem_cons_self c0 cs)
    have htail : ∀ q ∈ cs, (ev q).1 = false :=
      fun q hq => hfail q (List.mem_cons_of_mem c0 hq)
    simp only [iterLoop, hc0, Bool.false_eq_true, if_false]
    split
    · rename_i hgt
      obtain ⟨ha, he, hb⟩ := ih ((ev c0).2 : ℤ) c0 htail
      refine ⟨ha, by simp [he], ?_⟩
      rcases hb with ⟨hbd, hle⟩ | ⟨pre, c, post, hdec, hbd, hbs, hpre, hpost⟩
      · refine Or.inr ⟨[], c0, cs, by simp, by simpa using hbd, by exact hgt, ?_, ?_⟩
        · intro p hp; simp at hp
        · intro q hq; exact_mod_cast hle q hq
      · refine Or.inr ⟨c0 :: pre, c, post, by simp [hdec], by simpa using hbd,
          lt_trans hgt hbs, ?_, hpost⟩
        intro p hp
        rcases List.mem_cons.mp hp with h | h
        · subst h; exact_mod_cast hbs
        · exact hpre p h
    · rename_i hle0
      have hle0 : ((ev c0).2 : ℤ) ≤ bs := not_lt.mp hle0
      obtain ⟨ha, he, hb⟩ := ih bs bd htail
      refine ⟨ha, by simp [he], ?_⟩
      rcases hb with ⟨hbd, hle⟩ | ⟨pre, c, post, hdec, hbd, hbs, hpre, hpost⟩
      · refine Or.inl ⟨by simpa using hbd, ?_⟩
        intro q hq
        rcases List.mem_cons.mp hq with h | h
        · subst h; exact hle0
        · exact hle q h
      · refine Or.inr ⟨c0 :: pre, c, post, by simp [hdec], by simpa using hbd, hbs, ?_, hpost⟩
        intro p hp
        rcases List.mem_cons.mp hp with h | h
        · subst h; exact_mod_cast lt_of_le_of_lt hle0 hbs
        · exact hpre p h

theorem search_trace_le (ev : Vec3 → Bool × ℕ) :
    ∀ (fuel : ℕ) (d : Vec3) (step : ℚ),
    (search ev fuel d step).2.length ≤ 7 * fuel := by
  intro fuel
  induction fuel with
  | zero => intro d step; simp [search]
  | succ n ih =>
    intro d step
    have hlen : (iterLoop ev (candidates d step) (-1) d).evaluated.length ≤ 7 := by
      have h := iterLoop_evaluated_le ev (candidates d step) (-1) d
      simpa [candidates] using h
    simp only [search]
    rcases hEq : (iterLoop ev (candidates d step) (-1) d).adopted with _ | c
    · show ((iterLoop ev (candidates d step) (-1) d).evaluated ++
        (search ev n (iterLoop ev (candidates d step) (-1) d).bestDisp (step / 2)).2).length
          ≤ 7 * (n + 1)
      rw [List.length_append]
      calc (iterLoop ev (candidates d step) (-1) d).evaluated.length
          + (search ev n (iterLoop ev (candidates d step) (-1) d).bestDisp (step / 2)).2.length
        ≤ 7 + 7 * n := Nat.add_le_add hlen (ih _ _)
      _ = 7 * (n + 1) := by ring
    · show (iterLoop ev (candidates d step) (-1) d).evaluated.length ≤ 7 * (n + 1)
      calc (iterLoop ev (candidates d step) (-1) d).evaluated.length
          ≤ 7 := hlen
      _ ≤ 7 * (n + 1) := by nlinarith

/-- C4: the displacement search performs at most 5 outer iterations with at
most 7 candidate evaluations each (so at most 35 scoring replays in total);
the candidates of an iteration are, in order, the center and the ±X, ±Y, ±Z
perturbations by the current step size; and whenever the candidates split as
a failing prefix followed by a first successful candidate, the whole search
(with any remaining iteration budget) returns exactly that candidate having
evaluated exactly the prefix and the successful candidate. -/
theorem claim_C4 (ev : Vec3 → Bool × ℕ) (d0 : Vec3) :
    (displacementSearch ev d0).2.length ≤ 35 ∧
    (∀ (d : Vec3) (step : ℚ), candidates d step =
      [d, ⟨d.x + step, d.y, d.z⟩, ⟨d.x - step, d.y, d.z⟩,
       ⟨d.x, d.y + step, d.z⟩, ⟨d.x, d.y - step, d.z⟩,
       ⟨d.x, d.y, d.z + step⟩, ⟨d.x, d.y, d.z - step⟩]) ∧
    (∀ (d : Vec3) (step : ℚ) (fuel : ℕ) (pre : List Vec3) (c : Vec3)
       (post : List Vec3),
      candidates d step = pre ++ c :: post →
      (∀ p ∈ pre, (ev p).1 = false) →
      (ev c).1 = true →
      search ev (fuel + 1) d step = (c, pre ++ [c])) := by
  refine ⟨?_, ?_, ?_⟩
  · have h := search_trace_le ev 5 d0 (1/20)
    simpa [displacementSearch] using h
  · intro d step
    have hadd : ∀ a b : Vec3, a + b = ⟨a.x + b.x, a.y + b.y, a.z + b.z⟩ :=
      fun a b => rfl
    have hsub : ∀ a b : Vec3, a - b = ⟨a.x - b.x, a.y - b.y, a.z - b.z⟩ :=
      fun a b => rfl
    simp [candidates, hadd, hsub]
  · intro d step fuel pre c post hsplit hpre hc
    simp only [search, hsplit, iterLoop_first_success ev pre c post (-1) d hpre hc]

/-- C5: in an iteration where none of the 7 candidates succeeds, the search
continues from the candidate with the strictly highest steps-completed count
(ties broken in favor of the earliest candidate in evaluation order: every
earlier candidate scores strictly lower, every later one at most as high),
with the step size halved, after evaluating all 7 candidates. -/
theorem claim_C5 (ev : Vec3 → Bool × ℕ) (d : Vec3) (step : ℚ) (fuel : ℕ)
    (hfail : ∀ c ∈ candidates d step, (ev c).1 = false) :
    ∃ pre c post, candidates d step = pre ++ c :: post ∧
      (∀ p ∈ pre, (ev p).2 < (ev c).2) ∧
      (∀ q ∈ post, (ev q).2 ≤ (ev c).2) ∧
      search ev (fuel + 1) d step =
        ((search ev fuel c (step / 2)).1,
          candidates d step ++ (search ev fuel c (step / 2)).2) := by
  obtain ⟨ha, he, hb⟩ := iterLoop_all_fail ev (candidates d step) (-1) d hfail
  rcases hb with ⟨_, hle⟩ | ⟨pre, c, post, hdec, hbd, _, hpre, hpost⟩
  · exfalso
    have hd : d ∈ candidates d step := by simp [candidates]
    have := hle d hd
    have h0 : (0 : ℤ) ≤ ((ev d).2 : ℤ) := Int.natCast_nonneg _
    omega
  · refine ⟨pre, c, post, hdec, hpre, hpost, ?_⟩
    simp only [search, ha, he, hbd]

/-- A concrete always-failing scorer used to instantiate `claim_C5`. -/
def evFail : Vec3 → Bool × ℕ := fun _ => (false, 0)

/-- Witness for C5 at a concrete input: the all-zero displacement with the
initial step size and an always-failing scorer. -/
theorem claim_C5_witness :
    ∃ pre c post, candidates ⟨0, 0, 0⟩ (1/20) = pre ++ c :: post ∧
      (∀ p ∈ pre, (evFail p).2 < (evFail c).2) ∧
      (∀ q ∈ post, (evFail q).2 ≤ (evFail c).2) ∧
      search evFail (0 + 1) ⟨0, 0, 0⟩ (1/20) =
        ((search evFail 0 c ((1/20) / 2)).1,
          candidates ⟨0, 0, 0⟩ (1/20) ++ (search evFail 0 c ((1/20) / 2)).2) :=
  claim_C5 evFail ⟨0, 0, 0⟩ (1/20) 0 (by decide)

/-- C6: for every recorded gripper-width target, the matching loop of the
replay driver performs at most 10 actuation attempts; it actuates only while
the measured normalized width differs from the target by more than 0.1
(each recorded actuation was triggered by a reading outside the tolerance
band, and a reading already inside the band causes no actuation at all);
after the attempt budget is exhausted the step proceeds regardless. -/
theorem claim_C6 (σ : Type) (sim : SimOracle σ) (target : ℚ) (s : σ) :
    (gripperMatch sim target 10 s).2.length ≤ 10 ∧
    (∀ p ∈ (gripperMatch sim target 10 s).2,
      p.1 < target - 1/10 ∨ target + 1/10 < p.1) ∧
    (target - 1/10 ≤ (sim.gripperWidth s).2 →
      (sim.gripperWidth s).2 ≤ target + 1/10 →
      gripperMatch sim target 10 s = (s, [])) := by
  refine ⟨gripperMatch_length_le sim target 10 s, ?_, ?_⟩
  · intro p hp; exact gripperMatch_actuations_out_of_tol sim target 10 s p hp
  · intro h1 h2; exact gripperMatch_stops_in_tol sim target 10 s h1 h2

/-! ## Camera resolution (target_env.py lines 41-65) -/

/-- A camera viewpoint entry of `ROBOT_CAMERA_POSES_DICT[dataset]["viewpoints"]`:
nominal position, Euler angles in degrees, field of view, and the episode
indices it applies to. -/
structure Viewpoint where
  episodes : List ℕ
  cameraPosition : Vec3
  roll : ℚ
  pitch : ℚ
  yaw : ℚ
  fov : ℚ
deriving DecidableEq, Repr

/-- 3×3 rotation matrix with exact rational entries.  The code converts the
rotation to a quaternion (`r.as_quat()`); since that conversion is a
re-coding of the same rotation (up to global sign), orientations are
compared here at the rotation-matrix level. -/
structure Mat3 where
  m00 : ℚ
  m01 : ℚ
  m02 : ℚ
  m10 : ℚ
  m11 : ℚ
  m12 : ℚ
  m20 : ℚ
  m21 : ℚ
  m22 : ℚ
deriving DecidableEq, Repr

def Mat3.mul (A B : Mat3) : Mat3 :=
  ⟨A.m00 * B.m00 + A.m01 * B.m10 + A.m02 * B.m20,
   A.m00 * B.m01 + A.m01 * B.m11 + A.m02 * B.m21,
   A.m00 * B.m02 + A.m01 * B.m12 + A.m02 * B.m22,
   A.m10 * B.m00 + A.m11 * B.m10 + A.m12 * B.m20,
   A.m10 * B.m01 + A.m11 * B.m11 + A.m12 * B.m21,
   A.m10 * B.m02 + A.m11 * B.m12 + A.m12 * B.m22,
   A.m20 * B.m00 + A.m21 * B.m10 + A.m22 * B.m20,
   A.m20 * B.m01 + A.m21 * B.m11 + A.m22 * B.m21,
   A.m20 * B.m02 + A.m21 * B.m12 + A.m22 * B.m22⟩

/-- A trigonometric evaluator: maps an angle in degrees to its exact
`(cosine, sine)` pair.  The actual evaluation happens inside scipy and is
external to the embedded core, so it is a parameter of the embedding. -/
abbrev Trig : Type := ℚ → ℚ × ℚ

/-- Elementary rotation about the X axis, from a `(cos, sin)` pair. -/
def rotX (t : ℚ × ℚ) : Mat3 :=
  ⟨1, 0, 0,
   0, t.1, -t.2,
   0, t.2, t.1⟩

/-- Elementary rotation about the Y axis, from a `(cos, sin)` pair. -/
def rotY (t : ℚ × ℚ) : Mat3 :=
  ⟨t.1, 0, t.2,
   0, 1, 0,
   -t.2, 0, t.1⟩

/-- Elementary rotation about the Z axis, from a `(cos, sin)` pair. -/
def rotZ (t : ℚ × ℚ) : Mat3 :=
  ⟨t.1, -t.2, 0,
   t.2, t.1, 0,
   0, 0, 1⟩

/-- `scipy.spatial.transform.Rotation.from_euler('xyz', [roll, pitch, yaw],
degrees=True)` as called at target_env.py line 52.  Per scipy's documented
semantics a lowercase axis sequence denotes EXTRINSIC rotations about the
fixed world axes, applied roll-first: the composed matrix is
`Rz(yaw) · Ry(pitch) · Rx(roll)`. -/
def scipyEulerXYZdeg (T : Trig) (roll pitch yaw : ℚ) : Mat3 :=
  Mat3.mul (rotZ (T yaw)) (Mat3.mul (rotY (T pitch)) (rotX (T roll)))

/-- Modelled from the spec: the orientation "built from the viewpoint's
roll/pitch/yaw in degrees composed in intrinsic X-Y-Z order", i.e. the
composed matrix `Rx(roll) · Ry(pitch) · Rz(yaw)`.  This follows the spec's
words only, as the comparison target for C9; the source uses
`scipyEulerXYZdeg` above. -/
def eulerIntrinsicXYZdeg (T : Trig) (roll pitch yaw : ℚ) : Mat3 :=
  Mat3.mul (rotX (T roll)) (Mat3.mul (rotY (T pitch)) (rotZ (T yaw)))

/-- The `for viewpoint in info["viewpoints"]` loop with its
`if episode in viewpoint["episodes"]: ...; break`: the first viewpoint
whose episode set contains the episode. -/
def findViewpoint (vps : List Viewpoint) (episode : ℕ) : Option Viewpoint :=
  vps.find? (fun vp => vp.episodes.contains episode)

/-- The fixed camera-mount offset `np.array([-0.6, 0.0, 0.912])` added to
the viewpoint's nominal position (target_env.py line 47). -/
def cameraMountOffset : Vec3 := ⟨-(3/5), 0, 114/125⟩

/-- Camera pose resolution of target_env.py lines 45-59: position is the
viewpoint position plus the mount offset minus the robot displacement;
orientation comes from `scipy.Rotation.from_euler('xyz', ..., degrees=True)`.
`none` when no viewpoint covers the episode (in Python the subsequent use
of the never-assigned `camera_pose` raises). -/
def resolveCameraPose (T : Trig) (vps : List Viewpoint) (episode : ℕ)
    (disp : Vec3) : Option (Vec3 × Mat3) :=
  (findViewpoint vps episode).map fun vp =>
    (vp.cameraPosition + cameraMountOffset - disp,
     scipyEulerXYZdeg T vp.roll vp.pitch vp.yaw)

/-! ## Episode replay driver (target_env.py, TargetEnvWrapper.generate_image) -/

/-- The per-episode input archive `{episode}.npz`: the recorded pose and
gripper-width sequences (paired per step; the source keeps two equal-length
arrays indexed by the same counter) and the optional per-step fov override. -/
structure EpisodeData where
  steps : List (Pose × ℚ)
  fovOverride : Option ℚ
deriving DecidableEq, Repr

/-- The `(success, suggestion, steps)` triple returned by `generate_image`. -/
structure ReplayResult where
  success : Bool
  suggestion : Vec3
  steps : ℕ
deriving DecidableEq, Repr

/-- A reified filesystem side effect of `generate_image`: directory
creation, an encoded 30-fps video of buffered frame ids, or the
`np.savez` state archive. -/
inductive FsWrite where
  | mkDir (path : List String)
  | videoFile (path : List String) (frames : List ℕ) (fps : ℕ)
  | stateArchive (path : List String) (poses : List Pose)
      (joints : List (List ℚ)) (grips : List (ℚ × ℚ)) (offset : Vec3)
deriving DecidableEq, Repr

/-- Full observable outcome of a `generate_image` call that returns:
the result triple, the filesystem writes performed, and the camera pose
passed to `set_camera_pose` (position, orientation). -/
structure GenOut where
  result : ReplayResult
  writes : List FsWrite
  cameraPos : Vec3
  cameraOri : Mat3

/-- Everything a `TargetEnvWrapper` closes over: the simulator boundary,
the external trig evaluation used by scipy, the wrapper's target robot
name, and the per-dataset configuration (`viewpoints`, `extend_gripper`,
the external `core.signal.reach_further`, and the default displacement
`ROBOT_POSE_DICT[dataset][target_name]`). -/
structure DriverCfg (σ : Type) where
  sim : SimOracle σ
  trig : Trig
  targetName : String
  viewpoints : List Viewpoint
  extendGripper : ℚ
  reach_further : Pose → ℚ → Pose
  defaultDisp : Vec3

/-- Step remapping of target_env.py lines 87-89: translate the recorded
pose by `-displacement` and apply the dataset's reach-further offset. -/
def stepTargetPose {σ : Type} (cfg : DriverCfg σ) (disp : Vec3) (tp : Pose) :
    Pose :=
  cfg.reach_further ⟨tp.pos - disp, tp.quat⟩ cfg.extendGripper

/-- Accumulated state of the `for pose_index in range(num_robot_poses)`
loop: final simulator state, the `success` flag and `suggestion` vector,
the recorded achieved poses / gripper widths / joint angles, and the
buffered mask and RGB frames. -/
structure LoopOut (σ : Type) where
  fin : σ
  success : Bool
  suggestion : Vec3
  posesRec : List Pose
  gripsRec : List (ℚ × ℚ)
  jointsRec : List (List ℚ)
  maskFrames : List ℕ
  videoFrames : List ℕ

/-- The replay loop of target_env.py lines 86-166.  Each step: gripper
matching, drive to the remapped pose, early abort (recording the positional
residual) when the pose is not reached and tolerance is not unlimited,
otherwise record the achieved pose (translated back by `+displacement`),
gripper width pair and joint angles, render, and buffer the frames unless
this is a dry run. -/
def replayLoop {σ : Type} (cfg : DriverCfg σ) (unlimited dryRun : Bool)
    (disp : Vec3) : List (Pose × ℚ) → σ → LoopOut σ
  | [], s => ⟨s, true, 0, [], [], [], [], []⟩
  | (tp, g) :: rest, s =>
    let s1 := (gripperMatch cfg.sim g 10 s).1
    let dOut := cfg.sim.driveToPose (stepTargetPose cfg disp tp) s1
    if !unlimited && !dOut.reached then
      ⟨dOut.st, false, dOut.pose.pos - (stepTargetPose cfg disp tp).pos,
       [], [], [], [], []⟩
    else
      let rp := cfg.sim.eefPose dOut.st
      let reachedPose : Pose := ⟨rp.pos + disp, rp.quat⟩
      let gw := cfg.sim.gripperWidth dOut.st
      let ja := cfg.sim.jointAngles dOut.st
      let fr := cfg.sim.render dOut.st
      let o := replayLoop cfg unlimited dryRun disp rest dOut.st
      ⟨o.fin, o.success, o.suggestion,
       reachedPose :: o.posesRec, gw :: o.gripsRec, ja :: o.jointsRec,
       (if dryRun then o.maskFrames else fr.2 :: o.maskFrames),
       (if dryRun then o.videoFrames else fr.1 :: o.videoFrames)⟩

/-- `TargetEnvWrapper.generate_image`.  Control flow mirrors the source:
resolve the viewpoint (raising when none covers the episode), resolve the
displacement default, make the output directories unless dry-run, run the
replay loop, then — not dry-run only — stack and encode the buffered frames
(raising like `np.stack` on an empty buffer) and, on success only, persist
the state archive.  On the raised-empty-stack path the two directory
creations have already happened on disk but the exception propagates, so no
writes are reported for it here; no claim quantifies over writes of a
raising call. -/
def generateBody {σ : Type} (cfg : DriverCfg σ) (folder : String)
    (data : EpisodeData) (dispOpt : Option Vec3) (unlimited : Bool)
    (episode : ℕ) (dryRun : Bool) (s0 : σ) (vp : Viewpoint) :
    Except String GenOut :=
    let disp := dispOpt.getD cfg.defaultDisp
    let cameraPos := vp.cameraPosition + cameraMountOffset - disp
    let cameraOri := scipyEulerXYZdeg cfg.trig vp.roll vp.pitch vp.yaw
    let preWrites : List FsWrite :=
      if dryRun then [] else
        [.mkDir [folder, cfg.targetName ++ "_replay_mask"],
         .mkDir [folder, cfg.targetName ++ "_replay_video"]]
    let o := replayLoop cfg unlimited dryRun disp data.steps s0
    let result : ReplayResult := ⟨o.success, o.suggestion, o.posesRec.length⟩
    if dryRun then
      .ok ⟨result, [], cameraPos, cameraOri⟩
    else if o.maskFrames.isEmpty then
      .error "need at least one array to stack"
    else
      let vids : List FsWrite :=
        [.videoFile [folder, cfg.targetName ++ "_replay_mask",
            toString episode ++ ".mp4"] o.maskFrames 30,
         .videoFile [folder, cfg.targetName ++ "_replay_video",
            toString episode ++ ".mp4"] o.videoFrames 30]
      let arch : List FsWrite :=
        if o.success then
          [.mkDir [folder, "target_robot_states", cfg.targetName],
           .stateArchive [folder, "target_robot_states", cfg.targetName,
              toString episode ++ ".npz"]
             o.posesRec o.jointsRec o.gripsRec disp]
        else []
      .ok ⟨result, preWrites ++ vids ++ arch, cameraPos, cameraOri⟩

/-- Viewpoint dispatch of `generate_image`: raise when no viewpoint covers
the episode, else run the body above on the first matching viewpoint. -/
def generate_image {σ : Type} (cfg : DriverCfg σ) (folder : String)
    (data : EpisodeData) (dispOpt : Option Vec3) (unlimited : Bool)
    (episode : ℕ) (dryRun : Bool) (s0 : σ) : Except String GenOut :=
  match findViewpoint cfg.viewpoints episode with
  | none => .error "no viewpoint covers this episode"
  | some vp =>
    generateBody cfg folder data dispOpt unlimited episode dryRun s0 vp

theorem generate_image_of_viewpoint {σ : Type} (cfg : DriverCfg σ)
    (folder : String) (data : EpisodeData) (dispOpt : Option Vec3)
    (unlimited : Bool) (episode : ℕ) (dryRun : Bool) (s0 : σ)
    (vp : Viewpoint)
    (hvp : findViewpoint cfg.viewpoints episode = some vp) :
    generate_image cfg folder data dispOpt unlimited episode dryRun s0
      = generateBody cfg folder data dispOpt unlimited episode dryRun s0 vp := by
  unfold generate_image
  rw [hvp]

/-- Head reduction of the replay loop when the first step aborts
(`unlimited` off and the drive reports not reached). -/
theorem replayLoop_cons_abort {σ : Type} (cfg : DriverCfg σ) (u dr : Bool)
    (disp : Vec3) (tp : Pose) (g : ℚ) (rest : List (Pose × ℚ)) (s : σ)
    (h : (!u && !(cfg.sim.driveToPose (stepTargetPose cfg disp tp)
      ((gripperMatch cfg.sim g 10 s).1)).reached) = true) :
    replayLoop cfg u dr disp ((tp, g) :: rest) s =
      ⟨(cfg.sim.driveToPose (stepTargetPose cfg disp tp)
          ((gripperMatch cfg.sim g 10 s).1)).st,
       false,
       (cfg.sim.driveToPose (stepTargetPose cfg disp tp)
          ((gripperMatch cfg.sim g 10 s).1)).pose.pos
         - (stepTargetPose cfg disp tp).pos,
       [], [], [], [], []⟩ := by
  simp only [replayLoop]
  rw [if_pos h]

/-- Head reduction of the replay loop when the first step does not abort. -/
theorem replayLoop_cons_else {σ : Type} (cfg : DriverCfg σ) (u dr : Bool)
    (disp : Vec3) (tp : Pose) (g : ℚ) (rest : List (Pose × ℚ)) (s : σ)
    (h : (!u && !(cfg.sim.driveToPose (stepTargetPose cfg disp tp)
      ((gripperMatch cfg.sim g 10 s).1)).reached) = false) :
    replayLoop cfg u dr disp ((tp, g) :: rest) s =
      ⟨(replayLoop cfg u dr disp rest
          (cfg.sim.driveToPose (stepTargetPose cfg disp tp)
            ((gripperMatch cfg.sim g 10 s).1)).st).fin,
       (replayLoop cfg u dr disp rest
          (cfg.sim.driveToPose (stepTargetPose cfg disp tp)
            ((gripperMatch cfg.sim g 10 s).1)).st).success,
       (replayLoop cfg u dr disp rest
          (cfg.sim.driveToPose (stepTargetPose cfg disp tp)
            ((gripperMatch cfg.sim g 10 s).1)).st).suggestion,
       ⟨(cfg.sim.eefPose (cfg.sim.driveToPose (stepTargetPose cfg disp tp)
            ((gripperMatch cfg.sim g 10 s).1)).st).pos + disp,
        (cfg.sim.eefPose (cfg.sim.driveToPose (stepTargetPose cfg disp tp)
            ((gripperMatch cfg.sim g 10 s).1)).st).quat⟩ ::
          (replayLoop cfg u dr disp rest
            (cfg.sim.driveToPose (stepTargetPose cfg disp tp)
              ((gripperMatch cfg.sim g 10 s).1)).st).posesRec,
       cfg.sim.gripperWidth (cfg.sim.driveToPose (stepTargetPose cfg disp tp)
            ((gripperMatch cfg.sim g 10 s).1)).st ::
          (replayLoop cfg u dr disp rest
            (cfg.sim.driveToPose (stepTargetPose cfg disp tp)
              ((gripperMatch cfg.sim g 10 s).1)).st).gripsRec,
       cfg.sim.jointAngles (cfg.sim.driveToPose (stepTargetPose cfg disp tp)
            ((gripperMatch cfg.sim g 10 s).1)).st ::
          (replayLoop cfg u dr disp rest
            (cfg.sim.driveToPose (stepTargetPose cfg disp tp)
              ((gripperMatch cfg.sim g 10 s).1)).st).jointsRec,
       (if dr then (replayLoop cfg u dr disp rest
            (cfg.sim.driveToPose (stepTargetPose cfg disp tp)
              ((gripperMatch cfg.sim g 10 s).1)).st).maskFrames
        else (cfg.sim.render (cfg.sim.driveToPose (stepTargetPose cfg disp tp)
              ((gripperMatch cfg.sim g 10 s).1)).st).2 ::
          (replayLoop cfg u dr disp rest
            (cfg.sim.driveToPose (stepTargetPose cfg disp tp)
              ((gripperMatch cfg.sim g 10 s).1)).st).maskFrames),
       (if dr then (replayLoop cfg u dr disp rest
            (cfg.sim.driveToPose (stepTargetPose cfg disp tp)
              ((gripperMatch cfg.sim g 10 s).1)).st).videoFrames
        else (cfg.sim.render (cfg.sim.driveToPose (stepTargetPose cfg disp tp)
              ((gripperMatch cfg.sim g 10 s).1)).st).1 ::
          (replayLoop cfg u dr disp rest
            (cfg.sim.driveToPose (stepTargetPose cfg disp tp)
              ((gripperMatch cfg.sim g 10 s).1)).st).videoFrames)⟩ := by
  simp only [replayLoop]
  rw [if_neg (by simp [h])]

/-- Head reduction combining `replayLoop_cons_abort` with a gripper width
already inside the tolerance band (no actuation, state unchanged). -/
theorem replayLoop_stop_abort {σ : Type} (cfg : DriverCfg σ) (u dr : Bool)
    (disp : Vec3) (tp : Pose) (g : ℚ) (rest : List (Pose × ℚ)) (s : σ)
    (hw1 : g - 1/10 ≤ (cfg.sim.gripperWidth s).2)
    (hw2 : (cfg.sim.gripperWidth s).2 ≤ g + 1/10)
    (hab : (!u && !(cfg.sim.driveToPose (stepTargetPose cfg disp tp) s).reached)
      = true) :
    replayLoop cfg u dr disp ((tp, g) :: rest) s =
      ⟨(cfg.sim.driveToPose (stepTargetPose cfg disp tp) s).st, false,
       (cfg.sim.driveToPose (stepTargetPose cfg disp tp) s).pose.pos
         - (stepTargetPose cfg disp tp).pos,
       [], [], [], [], []⟩ := by
  have h1 : (gripperMatch cfg.sim g 10 s).1 = s := by
    rw [gripperMatch_stops_in_tol cfg.sim g 10 s hw1 hw2]
  rw [replayLoop_cons_abort cfg u dr disp tp g rest s (by rw [h1]; exact hab)]
  rw [h1]

/-- Head reduction combining `replayLoop_cons_else` with a gripper width
already inside the tolerance band (no actuation, state unchanged). -/
theorem replayLoop_stop_else {σ : Type} (cfg : DriverCfg σ) (u dr : Bool)
    (disp : Vec3) (tp : Pose) (g : ℚ) (rest : List (Pose × ℚ)) (s : σ)
    (hw1 : g - 1/10 ≤ (cfg.sim.gripperWidth s).2)
    (hw2 : (cfg.sim.gripperWidth s).2 ≤ g + 1/10)
    (hel : (!u && !(cfg.sim.driveToPose (stepTargetPose cfg disp tp) s).reached)
      = false) :
    replayLoop cfg u dr disp ((tp, g) :: rest) s =
      ⟨(replayLoop cfg u dr disp rest
          (cfg.sim.driveToPose (stepTargetPose cfg disp tp) s).st).fin,
       (replayLoop cfg u dr disp rest
          (cfg.sim.driveToPose (stepTargetPose cfg disp tp) s).st).success,
       (replayLoop cfg u dr disp rest
          (cfg.sim.driveToPose (stepTargetPose cfg disp tp) s).st).suggestion,
       ⟨(cfg.sim.eefPose (cfg.sim.driveToPose (stepTargetPose cfg disp tp) s).st).pos + disp,
        (cfg.sim.eefPose (cfg.sim.driveToPose (stepTargetPose cfg disp tp) s).st).quat⟩ ::
          (replayLoop cfg u dr disp rest
            (cfg.sim.driveToPose (stepTargetPose cfg disp tp) s).st).posesRec,
       cfg.sim.gripperWidth (cfg.sim.driveToPose (stepTargetPose cfg disp tp) s).st ::
          (replayLoop cfg u dr disp rest
            (cfg.sim.driveToPose (stepTargetPose cfg disp tp) s).st).gripsRec,
       cfg.sim.jointAngles (cfg.sim.driveToPose (stepTargetPose cfg disp tp) s).st ::
          (replayLoop cfg u dr disp rest
            (cfg.sim.driveToPose (stepTargetPose cfg disp tp) s).st).jointsRec,
       (if dr then (replayLoop cfg u dr disp rest
            (cfg.sim.driveToPose (stepTargetPose cfg disp tp) s).st).maskFrames
        else (cfg.sim.render (cfg.sim.driveToPose (stepTargetPose cfg disp tp) s).st).2 ::
          (replayLoop cfg u dr disp rest
            (cfg.sim.driveToPose (stepTargetPose cfg disp tp) s).st).maskFrames),
       (if dr then (replayLoop cfg u dr disp rest
            (cfg.sim.driveToPose (stepTargetPose cfg disp tp) s).st).videoFrames
        else (cfg.sim.render (cfg.sim.driveToPose (stepTargetPose cfg disp tp) s).st).1 ::
          (replayLoop cfg u dr disp rest
            (cfg.sim.driveToPose (stepTargetPose cfg disp tp) s).st).videoFrames)⟩ := by
  have h1 : (gripperMatch cfg.sim g 10 s).1 = s := by
    rw [gripperMatch_stops_in_tol cfg.sim g 10 s hw1 hw2]
  rw [replayLoop_cons_else cfg u dr disp tp g rest s (by rw [h1]; exact hel)]
  rw [h1]

theorem replayLoop_dry {σ : Type} (cfg : DriverCfg σ) (u : Bool) (disp : Vec3) :
    ∀ (steps : List (Pose × ℚ)) (s : σ),
    (replayLoop cfg u true disp steps s).fin
      = (replayLoop cfg u false disp steps s).fin ∧
    (replayLoop cfg u true disp steps s).success
      = (replayLoop cfg u false disp steps s).success ∧
    (replayLoop cfg u true disp steps s).suggestion
      = (replayLoop cfg u false disp steps s).suggestion ∧
    (replayLoop cfg u true disp steps s).posesRec
      = (replayLoop cfg u false disp steps s).posesRec ∧
    (replayLoop cfg u true disp steps s).gripsRec
      = (replayLoop cfg u false disp steps s).gripsRec ∧
    (replayLoop cfg u true disp steps s).jointsRec
      = (replayLoop cfg u false disp steps s).jointsRec ∧
    (replayLoop cfg u true disp steps s).maskFrames = [] ∧
    (replayLoop cfg u true disp steps s).videoFrames = [] := by
  intro steps
  induction steps with
  | nil => intro s; simp [replayLoop]
  | cons st rest ih =>
    obtain ⟨tp, g⟩ := st
    intro s
    simp only [replayLoop]
    split
    · simp
    · obtain ⟨h1, h2, h3, h4, h5, h6, h7, h8⟩ :=
        ih ((cfg.sim.driveToPose (stepTargetPose cfg disp tp)
          ((gripperMatch cfg.sim g 10 s).1)).st)
      simp [h1, h2, h3, h4, h5, h6, h7, h8]

theorem replayLoop_unlimited {σ : Type} (cfg : DriverCfg σ) (dr : Bool)
    (disp : Vec3) : ∀ (steps : List (Pose × ℚ)) (s : σ),
    (replayLoop cfg true dr disp steps s).success = true ∧
    (replayLoop cfg true dr disp steps s).suggestion = 0 ∧
    (replayLoop cfg true dr disp steps s).posesRec.length = steps.length ∧
    (replayLoop cfg true dr disp steps s).gripsRec.length = steps.length ∧
    (replayLoop cfg true dr disp steps s).jointsRec.length = steps.length ∧
    (replayLoop cfg true dr disp steps s).maskFrames.length
      = (if dr then 0 else steps.length) ∧
    (replayLoop cfg true dr disp steps s).videoFrames.length
      = (if dr then 0 else steps.length) := by
  intro steps
  induction steps with
  | nil => intro s; simp [replayLoop]
  | cons st rest ih =>
    obtain ⟨tp, g⟩ := st
    intro s
    obtain ⟨h1, h2, h3, h4, h5, h6, h7⟩ :=
      ih ((cfg.sim.driveToPose (stepTargetPose cfg disp tp)
        ((gripperMatch cfg.sim g 10 s).1)).st)
    simp only [replayLoop, Bool.not_true, Bool.false_and, Bool.false_eq_true,
      if_false]
    cases dr with
    | true => simp_all
    | false => simp_all

theorem replayLoop_success_lengths {σ : Type} (cfg : DriverCfg σ)
    (u dr : Bool) (disp : Vec3) : ∀ (steps : List (Pose × ℚ)) (s : σ),
    (replayLoop cfg u dr disp steps s).success = true →
    (replayLoop cfg u dr disp steps s).posesRec.length = steps.length ∧
    (replayLoop cfg u dr disp steps s).gripsRec.length = steps.length ∧
    (replayLoop cfg u dr disp steps s).jointsRec.length = steps.length ∧
    (replayLoop cfg u dr disp steps s).maskFrames.length
      = (if dr then 0 else steps.length) ∧
    (replayLoop cfg u dr disp steps s).videoFrames.length
      = (if dr then 0 else steps.length) := by
  intro steps
  induction steps with
  | nil => intro s _; simp [replayLoop]
  | cons st rest ih =>
    obtain ⟨tp, g⟩ := st
    intro s hs
    simp only [replayLoop] at hs ⊢
    split at hs
    · simp at hs
    · rename_i hcond
      obtain ⟨h1, h2, h3, h4, h5⟩ :=
        ih ((cfg.sim.driveToPose (stepTargetPose cfg disp tp)
          ((gripperMatch cfg.sim g 10 s).1)).st) hs
      rw [if_neg hcond]
      cases dr with
      | true => simp_all
      | false => simp_all

/-- Early abort: if every step of `pre` is processed without abort
(`success` still true after `pre`) and the drive for the next step reports
the pose as not reached, then — with `unlimited = false` — the whole loop on
`pre ++ stepK :: post` stops at that step: it fails, its suggestion is the
positional residual of that drive, and its records and frame buffers are
exactly those accumulated over `pre`. -/
theorem replayLoop_abort {σ : Type} (cfg : DriverCfg σ) (dr : Bool)
    (disp : Vec3) : ∀ (pre : List (Pose × ℚ)) (stepK : Pose × ℚ)
    (post : List (Pose × ℚ)) (s0 : σ),
    (replayLoop cfg false dr disp pre s0).success = true →
    (cfg.sim.driveToPose (stepTargetPose cfg disp stepK.1)
      ((gripperMatch cfg.sim stepK.2 10
        (replayLoop cfg false dr disp pre s0).fin).1)).reached = false →
    (replayLoop cfg false dr disp (pre ++ stepK :: post) s0).success = false ∧
    (replayLoop cfg false dr disp (pre ++ stepK :: post) s0).suggestion
      = (cfg.sim.driveToPose (stepTargetPose cfg disp stepK.1)
          ((gripperMatch cfg.sim stepK.2 10
            (replayLoop cfg false dr disp pre s0).fin).1)).pose.pos
        - (stepTargetPose cfg disp stepK.1).pos ∧
    (replayLoop cfg false dr disp (pre ++ stepK :: post) s0).posesRec
      = (replayLoop cfg false dr disp pre s0).posesRec ∧
    (replayLoop cfg false dr disp (pre ++ stepK :: post) s0).gripsRec
      = (replayLoop cfg false dr disp pre s0).gripsRec ∧
    (replayLoop cfg false dr disp (pre ++ stepK :: post) s0).jointsRec
      = (replayLoop cfg false dr disp pre s0).jointsRec ∧
    (replayLoop cfg false dr disp (pre ++ stepK :: post) s0).maskFrames
      = (replayLoop cfg false dr disp pre s0).maskFrames ∧
    (replayLoop cfg false dr disp (pre ++ stepK :: post) s0).videoFrames
      = (replayLoop cfg false dr disp pre s0).videoFrames := by
  intro pre
  induction pre with
  | nil =>
    intro stepK post s0 _ hfail
    obtain ⟨tp, g⟩ := stepK
    have hcond : (!false && !(cfg.sim.driveToPose (stepTargetPose cfg disp tp)
        ((gripperMatch cfg.sim g 10 s0).1)).reached) = true := by
      have h : (cfg.sim.driveToPose (stepTargetPose cfg disp tp)
          ((gripperMatch cfg.sim g 10 s0).1)).reached = false := hfail
      simp [h]
    rw [List.nil_append, replayLoop_cons_abort cfg false dr disp tp g post s0 hcond]
    exact ⟨rfl, rfl, rfl, rfl, rfl, rfl, rfl⟩
  | cons p pre ih =>
    intro stepK post s0 hsucc hfail
    obtain ⟨tp, g⟩ := p
    by_cases hab : (!false && !(cfg.sim.driveToPose (stepTargetPose cfg disp tp)
        ((gripperMatch cfg.sim g 10 s0).1)).reached) = true
    · rw [replayLoop_cons_abort cfg false dr disp tp g pre s0 hab] at hsucc
      simp at hsucc
    · have hel : (!false && !(cfg.sim.driveToPose (stepTargetPose cfg disp tp)
          ((gripperMatch cfg.sim g 10 s0).1)).reached) = false :=
        Bool.eq_false_iff.mpr hab
      rw [replayLoop_cons_else cfg false dr disp tp g pre s0 hel] at hsucc hfail
      rw [List.cons_append,
        replayLoop_cons_else cfg false dr disp tp g (pre ++ stepK :: post) s0 hel]
      obtain ⟨c1, c2, c3, c4, c5, c6, c7⟩ :=
        ih stepK post ((cfg.sim.driveToPose (stepTargetPose cfg disp tp)
          ((gripperMatch cfg.sim g 10 s0).1)).st) hsucc hfail
      rw [replayLoop_cons_else cfg false dr disp tp g pre s0 hel]
      exact ⟨c1, c2, by simp [c3], by simp [c4], by simp [c5],
        by cases dr <;> simp [c6], by cases dr <;> simp [c7]⟩

/-! ## Branch characterizations of the post-loop code of generate_image -/

theorem generateBody_dry {σ : Type} (cfg : DriverCfg σ) (folder : String)
    (data : EpisodeData) (dispOpt : Option Vec3) (u : Bool) (episode : ℕ)
    (s0 : σ) (vp : Viewpoint) :
    generateBody cfg folder data dispOpt u episode true s0 vp =
      .ok ⟨⟨(replayLoop cfg u true (dispOpt.getD cfg.defaultDisp) data.steps s0).success,
            (replayLoop cfg u true (dispOpt.getD cfg.defaultDisp) data.steps s0).suggestion,
            (replayLoop cfg u true (dispOpt.getD cfg.defaultDisp) data.steps s0).posesRec.length⟩,
        [],
        vp.cameraPosition + cameraMountOffset - dispOpt.getD cfg.defaultDisp,
        scipyEulerXYZdeg cfg.trig vp.roll vp.pitch vp.yaw⟩ := rfl

theorem generateBody_nondry_empty {σ : Type} (cfg : DriverCfg σ)
    (folder : String) (data : EpisodeData) (dispOpt : Option Vec3) (u : Bool)
    (episode : ℕ) (s0 : σ) (vp : Viewpoint)
    (hmask : (replayLoop cfg u false (dispOpt.getD cfg.defaultDisp)
      data.steps s0).maskFrames = []) :
    generateBody cfg folder data dispOpt u episode false s0 vp =
      .error "need at least one array to stack" := by
  unfold generateBody
  rw [if_neg (by simp)]
  rw [if_pos (by simp [hmask])]

theorem generateBody_nondry_fail {σ : Type} (cfg : DriverCfg σ)
    (folder : String) (data : EpisodeData) (dispOpt : Option Vec3) (u : Bool)
    (episode : ℕ) (s0 : σ) (vp : Viewpoint)
    (hmask : (replayLoop cfg u false (dispOpt.getD cfg.defaultDisp)
      data.steps s0).maskFrames ≠ [])
    (hsucc : (replayLoop cfg u false (dispOpt.getD cfg.defaultDisp)
      data.steps s0).success = false) :
    generateBody cfg folder data dispOpt u episode false s0 vp =
      .ok ⟨⟨false,
            (replayLoop cfg u false (dispOpt.getD cfg.defaultDisp) data.steps s0).suggestion,
            (replayLoop cfg u false (dispOpt.getD cfg.defaultDisp) data.steps s0).posesRec.length⟩,
        [FsWrite.mkDir [folder, cfg.targetName ++ "_replay_mask"],
         FsWrite.mkDir [folder, cfg.targetName ++ "_replay_video"],
         FsWrite.videoFile [folder, cfg.targetName ++ "_replay_mask",
            toString episode ++ ".mp4"]
           (replayLoop cfg u false (dispOpt.getD cfg.defaultDisp) data.steps s0).maskFrames 30,
         FsWrite.videoFile [folder, cfg.targetName ++ "_replay_video",
            toString episode ++ ".mp4"]
           (replayLoop cfg u false (dispOpt.getD cfg.defaultDisp) data.steps s0).videoFrames 30],
        vp.cameraPosition + cameraMountOffset - dispOpt.getD cfg.defaultDisp,
        scipyEulerXYZdeg cfg.trig vp.roll vp.pitch vp.yaw⟩ := by
  unfold generateBody
  rw [if_neg (by simp)]
  rw [if_neg (by simp [hmask])]
  rw [hsucc]
  simp

theorem generateBody_nondry_ok {σ : Type} (cfg : DriverCfg σ)
    (folder : String) (data : EpisodeData) (dispOpt : Option Vec3) (u : Bool)
    (episode : ℕ) (s0 : σ) (vp : Viewpoint)
    (hmask : (replayLoop cfg u false (dispOpt.getD cfg.defaultDisp)
      data.steps s0).maskFrames ≠ [])
    (hsucc : (replayLoop cfg u false (dispOpt.getD cfg.defaultDisp)
      data.steps s0).success = true) :
    generateBody cfg folder data dispOpt u episode false s0 vp =
      .ok ⟨⟨true,
            (replayLoop cfg u false (dispOpt.getD cfg.defaultDisp) data.steps s0).suggestion,
            (replayLoop cfg u false (dispOpt.getD cfg.defaultDisp) data.steps s0).posesRec.length⟩,
        [FsWrite.mkDir [folder, cfg.targetName ++ "_replay_mask"],
         FsWrite.mkDir [folder, cfg.targetName ++ "_replay_video"],
         FsWrite.videoFile [folder, cfg.targetName ++ "_replay_mask",
            toString episode ++ ".mp4"]
           (replayLoop cfg u false (dispOpt.getD cfg.defaultDisp) data.steps s0).maskFrames 30,
         FsWrite.videoFile [folder, cfg.targetName ++ "_replay_video",
            toString episode ++ ".mp4"]
           (replayLoop cfg u false (dispOpt.getD cfg.defaultDisp) data.steps s0).videoFrames 30,
         FsWrite.mkDir [folder, "target_robot_states", cfg.targetName],
         FsWrite.stateArchive [folder, "target_robot_states", cfg.targetName,
            toString episode ++ ".npz"]
           (replayLoop cfg u false (dispOpt.getD cfg.defaultDisp) data.steps s0).posesRec
           (replayLoop cfg u false (dispOpt.getD cfg.defaultDisp) data.steps s0).jointsRec
           (replayLoop cfg u false (dispOpt.getD cfg.defaultDisp) data.steps s0).gripsRec
           (dispOpt.getD cfg.defaultDisp)],
        vp.cameraPosition + cameraMountOffset - dispOpt.getD cfg.defaultDisp,
        scipyEulerXYZdeg cfg.trig vp.roll vp.pitch vp.yaw⟩ := by
  unfold generateBody
  rw [if_neg (by simp)]
  rw [if_neg (by simp [hmask])]
  rw [hsucc]
  simp

/-! ## Concrete instantiations used by witnesses and counterexamples -/

/-- The all-zero pose. -/
def pose0 : Pose := ⟨⟨0, 0, 0⟩, ⟨0, 0, 0, 1⟩⟩

/-- Trig evaluator that is exact at the right angles used in concrete
inputs (0°, 90°, 180°, 270°), where real-number cosine and sine take the
rational values below. -/
def trig90 : Trig := fun d =>
  if d = 0 then (1, 0)
  else if d = 90 then (0, 1)
  else if d = 180 then (-1, 0)
  else if d = 270 then (0, -1)
  else (1, 0)

/-- A single viewpoint covering episode 0 with zero angles. -/
def vp0 : Viewpoint := ⟨[0], ⟨0, 0, 0⟩, 0, 0, 0, 45⟩

/-- Simulator whose drive always reports the pose as reached. -/
def simOk : SimOracle Unit :=
  ⟨fun _ => (0, 0), fun _ _ => (), fun _ _ => ⟨(), true, pose0, 0⟩,
   fun _ => pose0, fun _ => [], fun _ => (0, 0)⟩

/-- Simulator whose drive always reports the pose as not reached. -/
def simFail : SimOracle Unit :=
  ⟨fun _ => (0, 0), fun _ _ => (), fun _ _ => ⟨(), false, pose0, 0⟩,
   fun _ => pose0, fun _ => [], fun _ => (0, 0)⟩

/-- Simulator (state = number of drives so far) that reaches the first
commanded pose and fails every later one. -/
def simStepFail : SimOracle ℕ :=
  ⟨fun _ => (0, 0), fun _ n => n, fun _ n => ⟨n + 1, n == 0, pose0, 0⟩,
   fun _ => pose0, fun _ => [], fun n => (n, n)⟩

def cfgOk : DriverCfg Unit :=
  ⟨simOk, trig90, "Panda", [vp0], 0, fun p _ => p, ⟨0, 0, 0⟩⟩

def cfgFail : DriverCfg Unit :=
  ⟨simFail, trig90, "Panda", [vp0], 0, fun p _ => p, ⟨0, 0, 0⟩⟩

def cfgStepFail : DriverCfg ℕ :=
  ⟨simStepFail, trig90, "Panda", [vp0], 0, fun p _ => p, ⟨0, 0, 0⟩⟩

/-- One-step episode. -/
def dataOne : EpisodeData := ⟨[(pose0, 0)], none⟩

/-- Two-step episode. -/
def dataTwo : EpisodeData := ⟨[(pose0, 0), (pose0, 0)], none⟩

/-! ## Claims about the replay driver -/

/-- C1 (amended): with `unlimited = false`, if every step of `pre` is
processed without abort and the motion controller reports the next step's
pose as not reached, the replay records nothing beyond `pre` (achieved
poses, gripper widths and joint angles all have length `k = pre.length`),
fails with the positional residual of that drive as its suggestion, and —
provided the call is a dry run or `k ≥ 1` — returns
`(success=false, suggestion, steps_completed=k)`.  (When `k = 0` on a
non-dry-run call the source instead raises from stacking an empty frame
buffer; see the counterexample.) -/
theorem claim_C1 (σ : Type) (cfg : DriverCfg σ) (dr : Bool)
    (folder : String) (data : EpisodeData) (disp : Vec3) (episode : ℕ)
    (pre : List (Pose × ℚ)) (stepK : Pose × ℚ) (post : List (Pose × ℚ))
    (s0 : σ) (vp : Viewpoint)
    (hvp : findViewpoint cfg.viewpoints episode = some vp)
    (hsteps : data.steps = pre ++ stepK :: post)
    (hpre : (replayLoop cfg false dr disp pre s0).success = true)
    (hfail : (cfg.sim.driveToPose (stepTargetPose cfg disp stepK.1)
      ((gripperMatch cfg.sim stepK.2 10
        (replayLoop cfg false dr disp pre s0).fin).1)).reached = false)
    (hk : dr = true ∨ pre ≠ []) :
    (replayLoop cfg false dr disp data.steps s0).success = false ∧
    (replayLoop cfg false dr disp data.steps s0).suggestion
      = (cfg.sim.driveToPose (stepTargetPose cfg disp stepK.1)
          ((gripperMatch cfg.sim stepK.2 10
            (replayLoop cfg false dr disp pre s0).fin).1)).pose.pos
        - (stepTargetPose cfg disp stepK.1).pos ∧
    (replayLoop cfg false dr disp data.steps s0).posesRec.length = pre.length ∧
    (replayLoop cfg false dr disp data.steps s0).gripsRec.length = pre.length ∧
    (replayLoop cfg false dr disp data.steps s0).jointsRec.length = pre.length ∧
    ∃ ws, generate_image cfg folder data (some disp) false episode dr s0
      = .ok ⟨⟨false,
          (replayLoop cfg false dr disp data.steps s0).suggestion, pre.length⟩,
        ws, vp.cameraPosition + cameraMountOffset - disp,
        scipyEulerXYZdeg cfg.trig vp.roll vp.pitch vp.yaw⟩ := by
  obtain ⟨a1, a2, a3, a4, a5, a6, a7⟩ :=
    replayLoop_abort cfg dr disp pre stepK post s0 hpre hfail
  obtain ⟨l1, l2, l3, l4, l5⟩ :=
    replayLoop_success_lengths cfg false dr disp pre s0 hpre
  rw [hsteps]
  refine ⟨a1, a2, by rw [a3, l1], by rw [a4, l2], by rw [a5, l3], ?_⟩
  rw [generate_image_of_viewpoint cfg folder data (some disp) false episode
    dr s0 vp hvp]
  have hdisp : (some disp).getD cfg.defaultDisp = disp := rfl
  cases dr with
  | true =>
    rw [generateBody_dry, hdisp, hsteps, a1, a3, l1]
    exact ⟨[], rfl⟩
  | false =>
    have hpre_ne : pre ≠ [] := by
      rcases hk with h | h
      · exact absurd h (by simp)
      · exact h
    have hmask : (replayLoop cfg false false disp (pre ++ stepK :: post)
        s0).maskFrames ≠ [] := by
      rw [a6]
      intro hnil
      rw [hnil] at l4
      simp at l4
      exact hpre_ne (List.eq_nil_of_length_eq_zero l4.symm)
    have hg := generateBody_nondry_fail cfg folder data (some disp) false
      episode s0 vp (by rw [hdisp, hsteps]; exact hmask)
      (by rw [hdisp, hsteps]; exact a1)
    rw [hg, hdisp, hsteps, a3, l1]
    exact ⟨_, rfl⟩

/-- Witness for C1: the always-failing simulator on a one-step episode,
dry run: the loop aborts at step 0 with no records. -/
theorem claim_C1_witness :
    (replayLoop cfgFail false true ⟨0, 0, 0⟩ dataOne.steps ()).success = false ∧
    (replayLoop cfgFail false true ⟨0, 0, 0⟩ dataOne.steps ()).posesRec.length = 0 :=
  ⟨(claim_C1 Unit cfgFail true "out" dataOne ⟨0, 0, 0⟩ 0 [] (pose0, 0) [] ()
      vp0 rfl rfl rfl rfl (Or.inl rfl)).1,
   (claim_C1 Unit cfgFail true "out" dataOne ⟨0, 0, 0⟩ 0 [] (pose0, 0) [] ()
      vp0 rfl rfl rfl rfl (Or.inl rfl)).2.2.1⟩

/-- Counterexample to C1 as frozen: a non-dry-run replay whose very first
step is unreachable does not return `(success=false, steps_completed=0, …)`
— it raises (numpy's `np.stack` of the empty frame buffer), because the
encoding block runs unconditionally before either return. -/
theorem claim_C1_cex :
    generate_image cfgFail "out" dataOne (some ⟨0, 0, 0⟩) false 0 false ()
      = .error "need at least one array to stack" := rfl

/-- C2 (amended): a non-dry-run replay that ends with `success = false`
writes no state archive, but it is not artifact-free: the output
directories are created and the RGB and mask frames buffered before the
abort are encoded and written as the two per-episode videos; when zero
steps completed the call instead raises from encoding the empty buffer. -/
theorem claim_C2 (σ : Type) (cfg : DriverCfg σ) (u : Bool) (folder : String)
    (data : EpisodeData) (dispOpt : Option Vec3) (episode : ℕ) (s0 : σ)
    (vp : Viewpoint)
    (hvp : findViewpoint cfg.viewpoints episode = some vp)
    (hfail : (replayLoop cfg u false (dispOpt.getD cfg.defaultDisp)
      data.steps s0).success = false) :
    ((replayLoop cfg u false (dispOpt.getD cfg.defaultDisp)
        data.steps s0).maskFrames = [] →
      generate_image cfg folder data dispOpt u episode false s0
        = .error "need at least one array to stack") ∧
    ((replayLoop cfg u false (dispOpt.getD cfg.defaultDisp)
        data.steps s0).maskFrames ≠ [] →
      generate_image cfg folder data dispOpt u episode false s0
        = .ok ⟨⟨false,
            (replayLoop cfg u false (dispOpt.getD cfg.defaultDisp) data.steps s0).suggestion,
            (replayLoop cfg u false (dispOpt.getD cfg.defaultDisp) data.steps s0).posesRec.length⟩,
          [FsWrite.mkDir [folder, cfg.targetName ++ "_replay_mask"],
           FsWrite.mkDir [folder, cfg.targetName ++ "_replay_video"],
           FsWrite.videoFile [folder, cfg.targetName ++ "_replay_mask",
              toString episode ++ ".mp4"]
             (replayLoop cfg u false (dispOpt.getD cfg.defaultDisp) data.steps s0).maskFrames 30,
           FsWrite.videoFile [folder, cfg.targetName ++ "_replay_video",
              toString episode ++ ".mp4"]
             (replayLoop cfg u false (dispOpt.getD cfg.defaultDisp) data.steps s0).videoFrames 30],
          vp.cameraPosition + cameraMountOffset - dispOpt.getD cfg.defaultDisp,
          scipyEulerXYZdeg cfg.trig vp.roll vp.pitch vp.yaw⟩) := by
  constructor
  · intro hmask
    rw [generate_image_of_viewpoint cfg folder data dispOpt u episode
      false s0 vp hvp]
    exact generateBody_nondry_empty cfg folder data dispOpt u episode s0 vp hmask
  · intro hmask
    rw [generate_image_of_viewpoint cfg folder data dispOpt u episode
      false s0 vp hvp]
    exact generateBody_nondry_fail cfg folder data dispOpt u episode s0 vp
      hmask hfail

/-- Concrete evaluation: with `simStepFail`, after the first drive (state 1)
the remaining one-step episode aborts immediately. -/
theorem stepFail_loop_tail :
    replayLoop cfgStepFail false false ⟨0, 0, 0⟩ [(pose0, 0)] 1 =
      ⟨2, false,
       pose0.pos - (stepTargetPose cfgStepFail ⟨0, 0, 0⟩ pose0).pos,
       [], [], [], [], []⟩ := by
  rw [replayLoop_stop_abort cfgStepFail false false ⟨0, 0, 0⟩ pose0 0
    [] 1 (by norm_num [cfgStepFail, simStepFail])
    (by norm_num [cfgStepFail, simStepFail])
    (by simp [cfgStepFail, simStepFail])]
  simp [cfgStepFail, simStepFail]

/-- Concrete evaluation: the two-step episode under `simStepFail` completes
step 0, buffers one frame pair, and fails at step 1. -/
theorem stepFail_loop :
    replayLoop cfgStepFail false false ⟨0, 0, 0⟩ dataTwo.steps 0 =
      ⟨2, false,
       pose0.pos - (stepTargetPose cfgStepFail ⟨0, 0, 0⟩ pose0).pos,
       [⟨pose0.pos + ⟨0, 0, 0⟩, pose0.quat⟩], [(0, 0)], [[]], [1], [1]⟩ := by
  rw [show dataTwo.steps = (pose0, (0 : ℚ)) :: [(pose0, 0)] from rfl]
  rw [replayLoop_stop_else cfgStepFail false false ⟨0, 0, 0⟩ pose0 0
    [(pose0, 0)] 0 (by norm_num [cfgStepFail, simStepFail])
    (by norm_num [cfgStepFail, simStepFail])
    (by simp [cfgStepFail, simStepFail])]
  have hst : (cfgStepFail.sim.driveToPose
      (stepTargetPose cfgStepFail ⟨0, 0, 0⟩ pose0) 0).st = 1 := rfl
  rw [hst, stepFail_loop_tail]
  simp [cfgStepFail, simStepFail]

/-- Witness for C2: the step-one-fails simulator on a two-step episode. -/
theorem claim_C2_witness :
    generate_image cfgStepFail "out" dataTwo (some ⟨0, 0, 0⟩) false 0 false 0
      = .ok ⟨⟨false,
          (replayLoop cfgStepFail false false ⟨0, 0, 0⟩ dataTwo.steps 0).suggestion,
          (replayLoop cfgStepFail false false ⟨0, 0, 0⟩ dataTwo.steps 0).posesRec.length⟩,
        [FsWrite.mkDir ["out", "Panda" ++ "_replay_mask"],
         FsWrite.mkDir ["out", "Panda" ++ "_replay_video"],
         FsWrite.videoFile ["out", "Panda" ++ "_replay_mask",
            toString 0 ++ ".mp4"]
           (replayLoop cfgStepFail false false ⟨0, 0, 0⟩ dataTwo.steps 0).maskFrames 30,
         FsWrite.videoFile ["out", "Panda" ++ "_replay_video",
            toString 0 ++ ".mp4"]
           (replayLoop cfgStepFail false false ⟨0, 0, 0⟩ dataTwo.steps 0).videoFrames 30],
        vp0.cameraPosition + cameraMountOffset - ⟨0, 0, 0⟩,
        scipyEulerXYZdeg trig90 vp0.roll vp0.pitch vp0.yaw⟩ :=
  (claim_C2 ℕ cfgStepFail false "out" dataTwo (some ⟨0, 0, 0⟩) 0 0 vp0
    (by rfl)
    (by show (replayLoop cfgStepFail false false ⟨0, 0, 0⟩ dataTwo.steps
          0).success = false
        rw [stepFail_loop])).2
    (by show (replayLoop cfgStepFail false false ⟨0, 0, 0⟩ dataTwo.steps
          0).maskFrames ≠ []
        rw [stepFail_loop]
        simp)

/-- The success flag and write list of a replay call that returned. -/
def okSuccessWrites (r : Except String GenOut) :
    Option (Bool × List FsWrite) :=
  match r with
  | .ok o => some (o.result.success, o.writes)
  | .error _ => none

/-- Counterexample to C2 as frozen: at a concrete non-dry-run replay that
fails at its second step, the code DOES write artifacts — both videos,
holding the one frame buffered before the abort — while reporting
`success = false`. -/
theorem claim_C2_cex :
    okSuccessWrites
        (generate_image cfgStepFail "out2" dataTwo (some ⟨0, 0, 0⟩) false 0
          false 0)
      = some (false,
        [FsWrite.mkDir ["out2", "Panda_replay_mask"],
         FsWrite.mkDir ["out2", "Panda_replay_video"],
         FsWrite.videoFile ["out2", "Panda_replay_mask", "0.mp4"] [1] 30,
         FsWrite.videoFile ["out2", "Panda_replay_video", "0.mp4"] [1] 30]) := by
  have hfail : (replayLoop cfgStepFail false false
      ((some (⟨0, 0, 0⟩ : Vec3)).getD cfgStepFail.defaultDisp)
      dataTwo.steps 0).success = false := by
    show (replayLoop cfgStepFail false false ⟨0, 0, 0⟩ dataTwo.steps
      0).success = false
    rw [stepFail_loop]
  have hmask : (replayLoop cfgStepFail false false
      ((some (⟨0, 0, 0⟩ : Vec3)).getD cfgStepFail.defaultDisp)
      dataTwo.steps 0).maskFrames ≠ [] := by
    show (replayLoop cfgStepFail false false ⟨0, 0, 0⟩ dataTwo.steps
      0).maskFrames ≠ []
    rw [stepFail_loop]
    simp
  rw [generate_image_of_viewpoint cfgStepFail "out2" dataTwo (some ⟨0, 0, 0⟩)
      false 0 false 0 vp0 rfl,
    generateBody_nondry_fail cfgStepFail "out2" dataTwo (some ⟨0, 0, 0⟩)
      false 0 0 vp0 hmask hfail]
  have hgd : (some (⟨0, 0, 0⟩ : Vec3)).getD cfgStepFail.defaultDisp
      = ⟨0, 0, 0⟩ := rfl
  unfold okSuccessWrites
  rw [hgd, stepFail_loop]
  rfl

/-- C7: a dry-run replay performs no filesystem writes at all — no
directories, no video encoding, no state archive — and buffers no frames,
while still running the full per-step simulation: the returned triple is
exactly the feasibility outcome of the (dry-run-independent) replay loop,
stated here through the non-dry-run loop to make the agreement explicit. -/
theorem claim_C7 (σ : Type) (cfg : DriverCfg σ) (folder : String)
    (data : EpisodeData) (dispOpt : Option Vec3) (u : Bool) (episode : ℕ)
    (s0 : σ) (vp : Viewpoint)
    (hvp : findViewpoint cfg.viewpoints episode = some vp) :
    generate_image cfg folder data dispOpt u episode true s0
      = .ok ⟨⟨(replayLoop cfg u false (dispOpt.getD cfg.defaultDisp)
              data.steps s0).success,
            (replayLoop cfg u false (dispOpt.getD cfg.defaultDisp)
              data.steps s0).suggestion,
            (replayLoop cfg u false (dispOpt.getD cfg.defaultDisp)
              data.steps s0).posesRec.length⟩,
        [],
        vp.cameraPosition + cameraMountOffset - dispOpt.getD cfg.defaultDisp,
        scipyEulerXYZdeg cfg.trig vp.roll vp.pitch vp.yaw⟩ ∧
    (replayLoop cfg u true (dispOpt.getD cfg.defaultDisp)
      data.steps s0).maskFrames = [] ∧
    (replayLoop cfg u true (dispOpt.getD cfg.defaultDisp)
      data.steps s0).videoFrames = [] := by
  obtain ⟨h1, h2, h3, h4, h5, h6, h7, h8⟩ :=
    replayLoop_dry cfg u (dispOpt.getD cfg.defaultDisp) data.steps s0
  refine ⟨?_, h7, h8⟩
  rw [generate_image_of_viewpoint cfg folder data dispOpt u episode true s0
    vp hvp, generateBody_dry, h2, h3, h4]

/-- Witness for C7: the always-reached simulator on a one-step episode. -/
theorem claim_C7_witness :
    generate_image cfgOk "out" dataOne (some ⟨0, 0, 0⟩) false 0 true ()
      = .ok ⟨⟨(replayLoop cfgOk false false
              ((some (⟨0, 0, 0⟩ : Vec3)).getD cfgOk.defaultDisp)
              dataOne.steps ()).success,
            (replayLoop cfgOk false false
              ((some (⟨0, 0, 0⟩ : Vec3)).getD cfgOk.defaultDisp)
              dataOne.steps ()).suggestion,
            (replayLoop cfgOk false false
              ((some (⟨0, 0, 0⟩ : Vec3)).getD cfgOk.defaultDisp)
              dataOne.steps ()).posesRec.length⟩,
        [],
        vp0.cameraPosition + cameraMountOffset
          - (some (⟨0, 0, 0⟩ : Vec3)).getD cfgOk.defaultDisp,
        scipyEulerXYZdeg cfgOk.trig vp0.roll vp0.pitch vp0.yaw⟩ :=
  (claim_C7 Unit cfgOk "out" dataOne (some ⟨0, 0, 0⟩) false 0 () vp0
    (by rfl)).1

/-- C9 (amended): for an episode covered by a viewpoint (the first match),
the resolved camera pose has position `viewpoint position + (-0.6, 0, 0.912)
- target displacement`, and orientation built from roll/pitch/yaw in degrees
composed in scipy's lowercase-'xyz' EXTRINSIC order, i.e. the rotation
`Rz(yaw) · Ry(pitch) · Rx(roll)` — not the intrinsic X-Y-Z composition the
spec states (see the counterexample). -/
theorem claim_C9 (σ : Type) (cfg : DriverCfg σ) (folder : String)
    (data : EpisodeData) (dispOpt : Option Vec3) (u : Bool) (episode : ℕ)
    (s0 : σ) (vp : Viewpoint)
    (hvp : findViewpoint cfg.viewpoints episode = some vp) :
    resolveCameraPose cfg.trig cfg.viewpoints episode
        (dispOpt.getD cfg.defaultDisp)
      = some (vp.cameraPosition + cameraMountOffset - dispOpt.getD cfg.defaultDisp,
          Mat3.mul (rotZ (cfg.trig vp.yaw))
            (Mat3.mul (rotY (cfg.trig vp.pitch)) (rotX (cfg.trig vp.roll)))) ∧
    ∃ out, generate_image cfg folder data dispOpt u episode true s0
        = .ok out ∧
      out.cameraPos
        = vp.cameraPosition + cameraMountOffset - dispOpt.getD cfg.defaultDisp ∧
      out.cameraOri
        = Mat3.mul (rotZ (cfg.trig vp.yaw))
            (Mat3.mul (rotY (cfg.trig vp.pitch)) (rotX (cfg.trig vp.roll))) := by
  constructor
  · unfold resolveCameraPose
    rw [hvp]
    rfl
  · rw [generate_image_of_viewpoint cfg folder data dispOpt u episode true s0
      vp hvp, generateBody_dry]
    exact ⟨_, rfl, rfl, rfl⟩

/-- Witness for C9 at the concrete zero-angle viewpoint. -/
theorem claim_C9_witness :
    resolveCameraPose cfgOk.trig cfgOk.viewpoints 0
        ((some (⟨0, 0, 0⟩ : Vec3)).getD cfgOk.defaultDisp)
      = some (vp0.cameraPosition + cameraMountOffset
            - (some (⟨0, 0, 0⟩ : Vec3)).getD cfgOk.defaultDisp,
          Mat3.mul (rotZ (cfgOk.trig vp0.yaw))
            (Mat3.mul (rotY (cfgOk.trig vp0.pitch))
              (rotX (cfgOk.trig vp0.roll)))) :=
  (claim_C9 Unit cfgOk "out" dataOne (some ⟨0, 0, 0⟩) false 0 () vp0
    (by rfl)).1

/-- A viewpoint with roll = pitch = 90°, where the extrinsic-xyz and the
intrinsic-XYZ compositions genuinely differ. -/
def vp9 : Viewpoint := ⟨[0], ⟨0, 0, 0⟩, 90, 90, 0, 45⟩

/-- Counterexample to C9 as frozen: at roll = 90°, pitch = 90°, yaw = 0°
(with the trig evaluator exact at right angles, where real cosine/sine take
these rational values), the orientation the code computes — scipy's
extrinsic 'xyz' composition — is NOT the intrinsic X-Y-Z composition the
spec describes: the two rotation matrices differ. -/
theorem claim_C9_cex :
    (resolveCameraPose trig90 [vp9] 0 ⟨0, 0, 0⟩).map Prod.snd
      = some (scipyEulerXYZdeg trig90 90 90 0) ∧
    scipyEulerXYZdeg trig90 90 90 0 ≠ eulerIntrinsicXYZdeg trig90 90 90 0 := by
  constructor
  · rfl
  · intro h
    have h01 : (scipyEulerXYZdeg trig90 90 90 0).m01
        = (eulerIntrinsicXYZdeg trig90 90 90 0).m01 := by rw [h]
    rw [show scipyEulerXYZdeg trig90 90 90 0
        = Mat3.mul (rotZ (trig90 0))
            (Mat3.mul (rotY (trig90 90)) (rotX (trig90 90))) from rfl,
      show eulerIntrinsicXYZdeg trig90 90 90 0
        = Mat3.mul (rotX (trig90 90))
            (Mat3.mul (rotY (trig90 90)) (rotZ (trig90 0))) from rfl,
      show trig90 0 = (1, 0) from by norm_num [trig90],
      show trig90 90 = (0, 1) from by norm_num [trig90]] at h01
    norm_num [Mat3.mul, rotX, rotY, rotZ] at h01

/-- C10: with `unlimited = true` the early-abort branch is unreachable: the
loop processes every step regardless of how many drives report not-reached,
and (on an episode with at least one step) the replay returns
`success = true`, `steps_completed = N` and the zero suggestion vector. -/
theorem claim_C10 (σ : Type) (cfg : DriverCfg σ) (folder : String)
    (data : EpisodeData) (dispOpt : Option Vec3) (dr : Bool) (episode : ℕ)
    (s0 : σ) (vp : Viewpoint)
    (hvp : findViewpoint cfg.viewpoints episode = some vp)
    (hne : data.steps ≠ []) :
    (replayLoop cfg true dr (dispOpt.getD cfg.defaultDisp)
      data.steps s0).success = true ∧
    (replayLoop cfg true dr (dispOpt.getD cfg.defaultDisp)
      data.steps s0).suggestion = 0 ∧
    (replayLoop cfg true dr (dispOpt.getD cfg.defaultDisp)
      data.steps s0).posesRec.length = data.steps.length ∧
    ∃ ws, generate_image cfg folder data dispOpt true episode dr s0
      = .ok ⟨⟨true, 0, data.steps.length⟩, ws,
        vp.cameraPosition + cameraMountOffset - dispOpt.getD cfg.defaultDisp,
        scipyEulerXYZdeg cfg.trig vp.roll vp.pitch vp.yaw⟩ := by
  obtain ⟨h1, h2, h3, h4, h5, h6, h7⟩ :=
    replayLoop_unlimited cfg dr (dispOpt.getD cfg.defaultDisp) data.steps s0
  refine ⟨h1, h2, h3, ?_⟩
  rw [generate_image_of_viewpoint cfg folder data dispOpt true episode dr s0
    vp hvp]
  cases dr with
  | true =>
    rw [generateBody_dry, h1, h2, h3]
    exact ⟨[], rfl⟩
  | false =>
    have hmask : (replayLoop cfg true false (dispOpt.getD cfg.defaultDisp)
        data.steps s0).maskFrames ≠ [] := by
      intro hnil
      rw [hnil] at h6
      simp at h6
      exact hne (List.eq_nil_of_length_eq_zero h6.symm)
    rw [generateBody_nondry_ok cfg folder data dispOpt true episode s0 vp
      hmask h1, h2, h3]
    exact ⟨_, rfl⟩

/-- Witness for C10: the always-reached simulator on a one-step episode. -/
theorem claim_C10_witness :
    (replayLoop cfgOk true false
      ((some (⟨0, 0, 0⟩ : Vec3)).getD cfgOk.defaultDisp)
      dataOne.steps ()).success = true :=
  (claim_C10 Unit cfgOk "out" dataOne (some ⟨0, 0, 0⟩) false 0 () vp0
    (by rfl) (by simp [dataOne])).1

/-! ## Worker boundary (generate_target_robot_images_new.py,
generate_one_episode) -/

/-- `select_gripper` (lines 18-28): the robot-name → gripper-name table,
raising on an unknown robot. -/
def select_gripper (robot : String) : Except String String :=
  if robot = "Sawyer" then .ok "RethinkGripper"
  else if robot = "Jaco" then .ok "JacoThreeFingerGripper"
  else if robot = "IIWA" ∨ robot = "UR5e" ∨ robot = "Kinova3" then
    .ok "Robotiq85Gripper"
  else if robot = "Panda" then .ok "PandaGripper"
  else .error ("Unknown robot " ++ robot)

/-- The worker `generate_one_episode` (lines 31-134), reduced to its
exception structure.  `pickGpu` stands for the `pick_best_gpu()` call and
`tryBody` for everything inside the `try:` block (wrapper construction,
displacement loading, the displacement search, the final committed replay),
as a fallible computation of the final success flag given the gripper name.
Crucially, `pick_best_gpu()` and `select_gripper(robot)` are executed
BEFORE the `try:` block in the source, so their exceptions propagate out of
the worker; only `tryBody` exceptions are caught and converted into a
`(robot, episode, False)` tuple. -/
def generate_one_episode (pickGpu : Except String Unit)
    (tryBody : String → Except String Bool)
    (robot : String) (episode : ℕ) : Except String (String × ℕ × Bool) :=
  match pickGpu with
  | .error e => .error e
  | .ok _ =>
    match select_gripper robot with
    | .error e => .error e
    | .ok gripper =>
      match tryBody gripper with
      | .ok success => .ok (robot, episode, success)
      | .error _ => .ok (robot, episode, false)

/-- C3 (amended): an exception raised inside the worker's `try:` block is
caught and converted into a returned `(robot, episode, false)` tuple, and a
non-raising body yields `(robot, episode, success)`; but exceptions from
device selection (`pick_best_gpu`) and from an unknown robot-to-gripper
mapping (`select_gripper`) occur before the `try:` block and propagate out
of the worker uncaught. -/
theorem claim_C3 (pickGpu : Except String Unit)
    (tryBody : String → Except String Bool) (robot : String) (episode : ℕ) :
    (∀ e, pickGpu = .error e →
      generate_one_episode pickGpu tryBody robot episode = .error e) ∧
    (∀ e, pickGpu = .ok () → select_gripper robot = .error e →
      generate_one_episode pickGpu tryBody robot episode = .error e) ∧
    (∀ g b, pickGpu = .ok () → select_gripper robot = .ok g →
      tryBody g = .ok b →
      generate_one_episode pickGpu tryBody robot episode
        = .ok (robot, episode, b)) ∧
    (∀ g e, pickGpu = .ok () → select_gripper robot = .ok g →
      tryBody g = .error e →
      generate_one_episode pickGpu tryBody robot episode
        = .ok (robot, episode, false)) := by
  refine ⟨?_, ?_, ?_, ?_⟩
  · intro e he
    simp [generate_one_episode, he]
  · intro e hp hg
    simp [generate_one_episode, hp, hg]
  · intro g b hp hg hb
    simp [generate_one_episode, hp, hg, hb]
  · intro g e hp hg hb
    simp [generate_one_episode, hp, hg, hb]

/-- A try-block body that raises. -/
def tryBoom : String → Except String Bool := fun _ => .error "boom"

/-- A try-block body that returns success. -/
def tryTrue : String → Except String Bool := fun _ => .ok true

/-- Witness for C3: a raising body on a known robot is converted into a
failure tuple. -/
theorem claim_C3_witness :
    generate_one_episode (Except.ok ()) tryBoom "Sawyer" 3
      = .ok ("Sawyer", 3, false) :=
  (claim_C3 (Except.ok ()) tryBoom "Sawyer" 3).2.2.2 "RethinkGripper" "boom"
    rfl rfl rfl

/-- Counterexample to C3 as frozen: for an unknown robot name the
`select_gripper` exception is raised before the `try:` block, so the worker
propagates the error instead of returning `(robot, episode, False)`. -/
theorem claim_C3_cex :
    generate_one_episode (Except.ok ()) tryTrue "Spot" 3
      = .error ("Unknown robot " ++ "Spot") := rfl

/-! ## Dispatcher checkpoint update (generate_target_robot_images_new.py,
main, lines 193-199) -/

/-- One completion processed by the dispatcher loop: skip a failed task
(`continue`), otherwise append the episode to the robot's whitelist entry
(`wl.setdefault(robot, []).append(ep)`), under the file lock. The
persisted store is a map from robot name to episode list. -/
def applyResult (st : String → List ℕ) (r : String × ℕ × Bool) :
    String → List ℕ :=
  fun rb => if r.2.2 = true ∧ rb = r.1 then st rb ++ [r.2.1] else st rb

/-- The `for fut in as_completed(futures)` loop, folded over the finished
tasks in completion order. -/
def processResults (init : String → List ℕ) :
    List (String × ℕ × Bool) → String → List ℕ
  | [] => init
  | r :: rs => processResults (applyResult init r) rs

theorem processResults_mem :
    ∀ (rs : List (String × ℕ × Bool)) (init : String → List ℕ)
      (r : String) (e : ℕ),
    e ∈ processResults init rs r ↔ e ∈ init r ∨ (r, e, true) ∈ rs := by
  intro rs
  induction rs with
  | nil => intro init r e; simp [processResults]
  | cons a rs ih =>
    intro init r e
    rw [show processResults init (a :: rs) = processResults (applyResult init a) rs from rfl]
    rw [ih (applyResult init a) r e]
    unfold applyResult
    by_cases h : a.2.2 = true ∧ r = a.1
    · rw [if_pos h]
      obtain ⟨a1, a2, a3⟩ := a
      simp only at h
      obtain ⟨hb, hr⟩ := h
      subst hb hr
      simp [List.mem_append, Prod.ext_iff]
      tauto
    · rw [if_neg h]
      obtain ⟨a1, a2, a3⟩ := a
      simp only at h
      have : ¬ (r, e, true) = (a1, a2, a3) := by
        intro hEq
        rw [Prod.ext_iff] at hEq
        obtain ⟨h1, h2⟩ := hEq
        rw [Prod.ext_iff] at h2
        obtain ⟨h2, h3⟩ := h2
        simp only at h1 h2 h3
        exact h ⟨h3.symm, h1⟩
      simp [List.mem_cons, this]

/-- C8: the dispatcher adds an episode to a robot's persisted whitelist only
for successful results: after all completions are folded in, an episode is
in a robot's entry exactly when it was there initially or some successful
`(robot, episode, true)` result was reported; consequently the final
membership is independent of the completion order. -/
theorem claim_C8 (init : String → List ℕ)
    (rs rs2 : List (String × ℕ × Bool)) (r : String) (e : ℕ)
    (hperm : rs.Perm rs2) :
    (e ∈ processResults init rs r ↔ e ∈ init r ∨ (r, e, true) ∈ rs) ∧
    (e ∈ processResults init rs2 r ↔ e ∈ processResults init rs r) := by
  refine ⟨processResults_mem rs init r e, ?_⟩
  rw [processResults_mem rs init r e, processResults_mem rs2 init r e,
    hperm.mem_iff]

/-- Witness for C8 at a concrete run: two results for robot "A", one
success and one failure, processed in either order. -/
theorem claim_C8_witness :
    (1 ∈ processResults (fun _ => [])
        [("A", 1, true), ("A", 2, false)] "A" ↔
      1 ∈ (fun _ => ([] : List ℕ)) "A" ∨
        ("A", 1, true) ∈ [("A", (1 : ℕ), true), ("A", 2, false)]) ∧
    (1 ∈ processResults (fun _ => [])
        [("A", 2, false), ("A", 1, true)] "A" ↔
      1 ∈ processResults (fun _ => [])
        [("A", 1, true), ("A", 2, false)] "A") :=
  claim_C8 (fun _ => []) [("A", 1, true), ("A", 2, false)]
    [("A", 2, false), ("A", 1, true)] "A" 1
    (List.Perm.swap ("A", 2, false) ("A", 1, true) [])

/-- Witness for C4: the always-failing scorer exhausts the budget and the
bound and candidate-order conjuncts hold at a concrete input. -/
theorem claim_C4_witness :
    (displacementSearch evFail ⟨0, 0, 0⟩).2.length ≤ 35 ∧
    candidates ⟨0, 0, 0⟩ 1 =
      [⟨0, 0, 0⟩, ⟨0 + 1, 0, 0⟩, ⟨0 - 1, 0, 0⟩, ⟨0, 0 + 1, 0⟩,
       ⟨0, 0 - 1, 0⟩, ⟨0, 0, 0 + 1⟩, ⟨0, 0, 0 - 1⟩] :=
  ⟨(claim_C4 evFail ⟨0, 0, 0⟩).1,
   (claim_C4 evFail ⟨0, 0, 0⟩).2.1 ⟨0, 0, 0⟩ 1⟩

/-- Witness for C6: the constant-width simulator with target 0 starts inside
the tolerance band, so the loop performs no actuation. -/
theorem claim_C6_witness :
    (gripperMatch simOk 0 10 ()).2.length ≤ 10 ∧
    gripperMatch simOk 0 10 () = ((), []) :=
  ⟨(claim_C6 Unit simOk 0 ()).1,
   (claim_C6 Unit simOk 0 ()).2.2 (by norm_num [simOk]) (by norm_num [simOk])⟩

end R2R
